import Mathlib

/-
Verification of the trip-currency-local repository against its
natural-language specification.

The JavaScript sources are shallowly embedded: JS numbers are modelled as
exact rationals (every numeric literal appearing in the relevant code —
1.5, 0.3, 0.25, 0.75, 1000000, 29, the mock rates — is exactly
representable in binary64, and the quartile indices Math.floor(n * 0.25),
Math.floor(n * 0.75) and the threshold products n * 0.3 agree with the
rational values n / 4, 3 * n / 4 and 3 * n / 10 at every integer n, so
the rational model coincides with the float behaviour of the embedded
expressions); thrown JS exceptions are modelled with Except; JSON objects
are modelled as structures, with a field that may be absent or
non-numeric modelled as an Option.
-/

/-! ## Data model of a history payload (src/unnamed/part_007) -/

/-- A parsed element of `data.results` in a history payload.
`rate` is `some r` when `typeof item.rate === 'number'` with value `r`,
and `none` when the field is absent or non-numeric.  `dateOk` is true
when `item.date` is truthy and `new Date(item.date).getTime()` is not
NaN. -/
structure HistoryPoint where
  rate : Option ℚ
  dateOk : Bool
deriving DecidableEq

/-- A history payload carrying a `results` array.  A payload that is null
or whose `results` is missing or not an array is modelled as `none` at
the use sites. -/
structure HistoryData where
  results : List HistoryPoint
deriving DecidableEq

/-- The per-item condition of the filter inside
`ApiService.validateExchangeRateData` (part_007 lines 302-309):
the rate is a number, strictly positive, the date parses, and the rate is
below the 1,000,000 sanity ceiling. -/
def isValidPoint (p : HistoryPoint) : Bool :=
  match p.rate with
  | some r => decide (0 < r) && p.dateOk && decide (r < 1000000)
  | none => false

/-- Embedding of `ApiService.validateExchangeRateData` (part_007 lines
296-312): false on a null payload or a missing results array, otherwise
true exactly when the filtered list of valid items is nonempty. -/
def validateExchangeRateData : Option HistoryData → Bool
  | none => false
  | some d => decide (0 < (d.results.filter isValidPoint).length)

/-! ## The IQR outlier fence (identical text in part_007 lines 326-334 and
ExchangeRateChart.jsx lines 315-324, shared here) -/

/-- Ascending insertion of one element, the helper of `sortRates`. -/
def insertAsc (x : ℚ) : List ℚ → List ℚ
  | [] => [x]
  | y :: ys => if x ≤ y then x :: y :: ys else y :: insertAsc x ys

/-- Ascending numeric sort, the model of
`[...rates].sort((a, b) => a - b)`. -/
def sortRates : List ℚ → List ℚ
  | [] => []
  | x :: xs => insertAsc x (sortRates xs)

/-- Model of `sortedRates[Math.floor(sortedRates.length * 0.25)]`:
`n * 0.25` is the exact float `n / 4`, so the floor is natural division
by 4. -/
def quartile1 (rates : List ℚ) : ℚ :=
  (sortRates rates).getD ((sortRates rates).length / 4) 0

/-- Model of `sortedRates[Math.floor(sortedRates.length * 0.75)]`:
`n * 0.75` is the exact float `3 * n / 4`, so the floor is natural
division of `3 * n` by 4. -/
def quartile3 (rates : List ℚ) : ℚ :=
  (sortRates rates).getD (3 * (sortRates rates).length / 4) 0

/-- Lower IQR fence `q1 - 1.5 * iqr` of the two gate sites. -/
def iqrLower (rates : List ℚ) : ℚ :=
  quartile1 rates - 1.5 * (quartile3 rates - quartile1 rates)

/-- Upper IQR fence `q3 + 1.5 * iqr` of the two gate sites. -/
def iqrUpper (rates : List ℚ) : ℚ :=
  quartile3 rates + 1.5 * (quartile3 rates - quartile1 rates)

/-- Model of `rates.filter(rate => rate < lowerBound || rate > upperBound)`,
the list of points outside the IQR fence. -/
def iqrOutliers (rates : List ℚ) : List ℚ :=
  rates.filter (fun r => decide (r < iqrLower rates) || decide (iqrUpper rates < r))

/-- Model of `data.results.map(item => item.rate).filter(rate => rate > 0)`
(part_007 line 320): the positive numeric rates of the payload, in order
(a non-numeric `rate` compares false against `> 0` and is dropped). -/
def qualityRates (d : HistoryData) : List ℚ :=
  ((d.results.map HistoryPoint.rate).filterMap id).filter (fun r => decide (0 < r))

/-- Embedding of `ApiService.validateExchangeRateQuality` (part_007 lines
315-338).  A null payload fails the leading `validateExchangeRateData`
pre-check, hence the direct false in the none case.  The final comparison
is `outliers.length < rates.length * 0.3`. -/
def validateExchangeRateQuality : Option HistoryData → Bool
  | none => false
  | some d =>
    if validateExchangeRateData (some d) = true then
      if (qualityRates d).length < 2 then false
      else decide (((iqrOutliers (qualityRates d)).length : ℚ) <
        (((qualityRates d).length : ℚ)) * 0.3)
    else false

/-- Model of line 308 of ExchangeRateChart.jsx:
`chartData.filter(rate => rate !== null && rate > 0)`, the valid rates of
the 288 chart slots (a slot with no datum holds `null`, modelled
`none`). -/
def chartValidRates (chartData : List (Option ℚ)) : List ℚ :=
  chartData.filterMap (fun s =>
    match s with
    | some r => if 0 < r then some r else none
    | none => none)

/-- Embedding of the inline quality gate of `fetchChartData`
(ExchangeRateChart.jsx lines 307-329): insufficient (false) when fewer
than 29 valid rates, insufficient when `outliers.length >
validRates.length * 0.3`, otherwise the data is kept (true). -/
def chartQualityGate (validRates : List ℚ) : Bool :=
  if validRates.length < 29 then false
  else if ((validRates.length : ℚ)) * 0.3 < ((iqrOutliers validRates).length : ℚ) then false
  else true

/-! ## Concrete datasets used by the claims -/

/-- n copies of a point with the given rate and a parsing date. -/
def mkPoints (r : ℚ) (n : ℕ) : List HistoryPoint :=
  List.replicate n ⟨some r, true⟩

/-- A payload wrapping a plain list of rates, every point dated. -/
def mkData (rates : List ℚ) : HistoryData :=
  ⟨rates.map (fun r => ⟨some r, true⟩)⟩

/-- 100 valid points with exactly 30 outside the fence: the 70 central
points are 100, so Q1 = Q3 = 100 and the fence is [100, 100]; the 15
points at 1 and 15 at 200 all fall outside. -/
def dsOut30 : HistoryData := ⟨mkPoints 1 15 ++ mkPoints 100 70 ++ mkPoints 200 15⟩

/-- 100 valid points with exactly 35 outside the fence [100, 100]. -/
def dsOut35 : HistoryData := ⟨mkPoints 1 18 ++ mkPoints 100 65 ++ mkPoints 200 17⟩

/-- 100 valid points with exactly 25 outside the fence [100, 100]. -/
def dsOut25 : HistoryData := ⟨mkPoints 1 13 ++ mkPoints 100 75 ++ mkPoints 200 12⟩

/-- A payload with a single valid point. -/
def dsSingle : HistoryData := ⟨mkPoints 100 1⟩

/-- A payload with one point whose rate is negative, hence no valid point. -/
def dsNegative : HistoryData := ⟨[⟨some (-5), true⟩]⟩

/-- Ten identical valid points, enough for the ApiService gate but below
the chart gate minimum of 29. -/
def dsTen : HistoryData := ⟨mkPoints 100 10⟩

/-! ## The presentation-layer API client (src/unnamed/part_007) -/

/-- Response envelope of the API client: the `success`, `error.message`
and `data` fields of the JSON bodies.  The source never writes a `stale`
property on any response object it builds or forwards; the optional
`staleTag` field records that absence as `none` in every constructed
response. -/
structure Response (α : Type) where
  success : Bool
  errorMsg : Option String
  data : Option α
  staleTag : Option Bool
deriving DecidableEq

/-- Outcome of one `fetch` attempt inside a try block: either the fetch
threw with a message, or an HTTP response arrived with its `ok` flag,
status code and parsed body. -/
inductive FetchOutcome (α : Type) where
  | netError (msg : String)
  | httpResponse (ok : Bool) (status : ℕ) (body : Response α)
deriving DecidableEq

/-- Substring test, the model of `String.prototype.includes`. -/
def containsSub (needle hay : String) : Bool := decide (needle.data <:+: hay.data)

/-- The connection-failure test of the three catch blocks (part_007 lines
51, 98 and 166): the error message contains 'Failed to fetch' or
'ERR_CONNECTION_REFUSED'. -/
def isConnectionError (msg : String) : Bool :=
  containsSub ("Failed to fetch") msg || containsSub ("ERR_CONNECTION_REFUSED") msg

/-- The shared try-block of `request` and `rankingRequest` (part_007
lines 33-46 and 80-93): throw on a non-ok HTTP status, throw the body's
error message (or the given default) when its success flag is falsy,
otherwise return the body. -/
def requestTry {α : Type} (defaultErr : String) : FetchOutcome α → Except String (Response α)
  | .netError msg => .error msg
  | .httpResponse ok status body =>
    if ok = false then .error ("HTTP error! status: " ++ toString status)
    else if body.success = false then .error (body.errorMsg.getD defaultErr)
    else .ok body

/-- The catch clause shared by the three request methods (part_007 lines
47-57, 94-104 and 162-172): a thrown message marking a connection failure
is answered with the method's mock fallback, every other thrown message
is rethrown. -/
def catchConn {α : Type} (fallback : Response α) :
    Except String (Response α) → Except String (Response α)
  | .ok v => .ok v
  | .error msg => if isConnectionError msg = true then .ok fallback else .error msg

/-- Payload shapes of the currency service seen by the client: the
latest-rates object, the health object, or a bare message object.  A rate
entry's value is `none` when it is not a number. -/
inductive CurrencyPayload where
  | rateTable (base : String) (rates : List (String × Option ℚ))
      (timestamp : String) (cacheHit : Bool)
  | health (status service version : String)
  | note (msg : String)
deriving DecidableEq

/-- Embedding of `ApiService.getMockData` (part_007 lines 182-218); `now`
stands for the impure `new Date().toISOString()`. -/
def getMockData (endpoint now : String) : Response CurrencyPayload :=
  if containsSub ("/currencies/latest") endpoint then
    ⟨true, none, some (.rateTable ("KRW")
      [("USD", some 1350.5), ("JPY", some 9.25), ("EUR", some 1480.75),
       ("GBP", some 1720.3), ("CNY", some 190.45)] now false), none⟩
  else if containsSub ("/health") endpoint then
    ⟨true, none, some (.health ("healthy") ("currency-service-mock") ("1.0.0-mock")), none⟩
  else
    ⟨true, none, some (.note ("Mock data - 서비스가 실행되지 않음")), none⟩

/-- One row of the mock ranking table. -/
structure RankEntry where
  country_code : String
  country_name : String
  selection_count : ℕ
  rank : ℕ
deriving DecidableEq

/-- Payload shapes of the ranking service seen by the client. -/
inductive RankingPayload where
  | rankingTable (period : String) (total_selections : ℕ)
      (last_updated : String) (entries : List RankEntry)
  | note (msg : String)
deriving DecidableEq

/-- Embedding of `ApiService.getRankingMockData` (part_007 lines
220-250). -/
def getRankingMockData (endpoint now : String) : Response RankingPayload :=
  if containsSub ("/rankings") endpoint then
    ⟨true, none, some (.rankingTable ("daily") 1250 now
      [⟨"JP", "일본", 245, 1⟩, ⟨"US", "미국", 198, 2⟩, ⟨"TH", "태국", 156, 3⟩,
       ⟨"VN", "베트남", 134, 4⟩, ⟨"SG", "싱가포르", 98, 5⟩, ⟨"CN", "중국", 87, 6⟩,
       ⟨"GB", "영국", 76, 7⟩, ⟨"AU", "호주", 65, 8⟩, ⟨"CA", "캐나다", 54, 9⟩,
       ⟨"DE", "독일", 43, 10⟩]), none⟩
  else
    ⟨true, none, some (.note ("Mock ranking data - 랭킹 서비스가 실행되지 않음")), none⟩

/-- Payload shapes of the history service seen by the client: a series
with a results array, the stats object, or a bare message object. -/
inductive HistoryPayload where
  | series (hd : HistoryData)
  | statsTable (base target period : String) (average low high volatility : ℚ)
      (trend : String) (data_points : ℕ)
  | note (msg : String)
deriving DecidableEq

/-- The results array of a payload: only a series payload has one, so the
validity and quality checks receive `none` (no `results` array) for the
other shapes. -/
def payloadResults : HistoryPayload → Option HistoryData
  | .series hd => some hd
  | _ => none

/-- Embedding of `ApiService.getHistoryMockData` (part_007 lines
253-293).  The random walk of `generateMockHistoryData` is impure, so the
series it would generate is taken as the parameter `gen`.  The stats
branch is kept in source order, which makes it unreachable: its endpoint
test is subsumed by the first branch's test. -/
def getHistoryMockData (endpoint : String) (gen : HistoryData) : Response HistoryPayload :=
  if containsSub ("/api/v1/history") endpoint then
    ⟨true, none, some (.series gen), none⟩
  else if containsSub ("/api/v1/history/stats") endpoint then
    ⟨true, none, some (.statsTable ("KRW") ("USD") ("6m") 1350.25 1280.5 1420.75 45.3
      ("upward") 180), none⟩
  else
    ⟨true, none, some (.note ("Mock history data - History 서비스가 실행되지 않음")), none⟩

/-- Embedding of `ApiService.request` (part_007 lines 14-58): run the
try-block, then the connection-failure catch with this method's mock
data. -/
def request (endpoint now : String) (o : FetchOutcome CurrencyPayload) :
    Except String (Response CurrencyPayload) :=
  catchConn (getMockData endpoint now) (requestTry ("API 요청 실패") o)

/-- Embedding of `ApiService.rankingRequest` (part_007 lines 61-105). -/
def rankingRequest (endpoint now : String) (o : FetchOutcome RankingPayload) :
    Except String (Response RankingPayload) :=
  catchConn (getRankingMockData endpoint now) (requestTry ("랭킹 API 요청 실패") o)

/-- The payload checks of `historyRequest` (part_007 lines 140-159): a
truthy payload failing the validity check is answered with a success
false body carrying '데이터 부족' and null data; one passing validity but
failing the quality check is answered with '데이터 품질 부족' and null
data; otherwise the body passes through unchanged. -/
def historyCheckBody (body : Response HistoryPayload) : Response HistoryPayload :=
  match body.data with
  | some payload =>
    if validateExchangeRateData (payloadResults payload) = false then
      ⟨false, some ("데이터 부족"), none, none⟩
    else if validateExchangeRateQuality (payloadResults payload) = false then
      ⟨false, some ("데이터 품질 부족"), none, none⟩
    else body
  | none => body

/-- Try-block of `historyRequest` (part_007 lines 127-161): the shared
shape of `requestTry` followed by the payload checks. -/
def historyTry : FetchOutcome HistoryPayload → Except String (Response HistoryPayload)
  | .netError msg => .error msg
  | .httpResponse ok status body =>
    if ok = false then .error ("HTTP error! status: " ++ toString status)
    else if body.success = false then .error (body.errorMsg.getD ("History API 요청 실패"))
    else .ok (historyCheckBody body)

/-- Embedding of `ApiService.historyRequest` (part_007 lines 108-173). -/
def historyRequest (endpoint : String) (gen : HistoryData) (o : FetchOutcome HistoryPayload) :
    Except String (Response HistoryPayload) :=
  catchConn (getHistoryMockData endpoint gen) (historyTry o)

/-- The validation loop of `getExchangeRates` (part_007 lines 468-476):
keep exactly the entries whose value is numeric and strictly positive. -/
def filterValidRates (entries : List (String × Option ℚ)) : List (String × Option ℚ) :=
  entries.filterMap (fun e =>
    match e.2 with
    | some r => if 0 < r then some (e.1, some r) else none
    | none => none)

/-- Post-processing of `getExchangeRates` (part_007 lines 462-490): on a
successful response carrying a rates object, filter the rates; if no
positive numeric rate remains, answer success false, '데이터 부족' and
null data, else forward the response with the filtered rates. -/
def getExchangeRatesPost (resp : Response CurrencyPayload) : Response CurrencyPayload :=
  match resp.data with
  | some (.rateTable base entries ts ch) =>
    if resp.success = true then
      if (filterValidRates entries).length = 0 then
        ⟨false, some ("데이터 부족"), none, none⟩
      else
        ⟨resp.success, resp.errorMsg, some (.rateTable base (filterValidRates entries) ts ch),
          resp.staleTag⟩
    else resp
  | _ => resp

/-- Embedding of `ApiService.getExchangeRates` (part_007 lines 462-490):
the underlying `request` followed by the rate validation; a thrown error
propagates. -/
def getExchangeRates (endpoint now : String) (o : FetchOutcome CurrencyPayload) :
    Except String (Response CurrencyPayload) :=
  match request endpoint now o with
  | .ok resp => .ok (getExchangeRatesPost resp)
  | .error msg => .error msg

/-- The latest-rates endpoint used as a concrete read in the claims. -/
def latestEndpoint : String := "/api/v1/currencies/latest?symbols=USD&base=KRW"

/-- A history body whose payload has a results array but no valid point. -/
def histBadBody : Response HistoryPayload := ⟨true, none, some (.series dsNegative), none⟩

/-- A history body whose payload passes validity (one valid point) but
fails the quality gate's minimum of two positive rates. -/
def histLowBody : Response HistoryPayload := ⟨true, none, some (.series dsSingle), none⟩

/-- A successful currency body whose rates hold no positive numeric
value. -/
def ratesEmptyBody : Response CurrencyPayload :=
  ⟨true, none, some (.rateTable ("KRW") [("USD", none), ("JPY", some (-3))] ("t0") false), none⟩

/-! ## Cache consistency agent (src/unnamed/part_012, Currency Service) -/

/-- Payload of an `exchange_rate_updated` event, keyed by its currency
code. -/
structure RateUpdatedMsg where
  currency_code : String
  deal_base_rate : ℚ
  updated_at : String

/-- State of a cache consistency agent: its private cache (a lookup from
currency code to cached rate) and the marker of the last applied
event. -/
structure AgentState where
  cache : String → Option ℚ
  lastApplied : Option String

/-- Model of `currency_provider.clear_cache(currency_code)`: drop the
entry of one currency. -/
def clear_cache (code : String) (c : String → Option ℚ) : String → Option ℚ :=
  fun k => if k = code then none else c k

/-- Model of `currency_provider.refresh_currency_cache(currency_code)`:
re-read the canonical store's value for the currency and cache it. -/
def refresh_currency_cache (store : String → Option ℚ) (code : String)
    (c : String → Option ℚ) : String → Option ℚ :=
  fun k => if k = code then store code else c k

/-- Embedding of `handle_exchange_rate_updated` (part_012 lines 117-121,
Currency Service handler): invalidate the entry for the event's currency,
then refresh it from the canonical provider; the agent records the event
as last applied at `now`. -/
def handle_exchange_rate_updated (store : String → Option ℚ) (msg : RateUpdatedMsg)
    (now : String) (s : AgentState) : AgentState :=
  { cache := refresh_currency_cache store msg.currency_code
      (clear_cache msg.currency_code s.cache),
    lastApplied := some now }

/-! ## Country-to-currency mapping (src/unnamed/part_001) -/

/-- The table of `getCurrencyCode` (part_001 lines 152-208), in source
order.  The keys of the source's final group (PK, BD, LK, NP, MM, KH, LA,
BN, FJ, PG, SB, VU, WS, TO, KI, TV, NR, PW, FM, MH) repeat earlier
bindings with the same values; JS object-literal semantics keep the last
binding of a repeated key, modelled below by looking the key up in the
reversed list. -/
def countryToCurrency : List (String × String) := [
  ("US", "USD"), ("JP", "JPY"), ("GB", "GBP"), ("CN", "CNY"), ("KR", "KRW"),
  ("DE", "EUR"), ("FR", "EUR"), ("IT", "EUR"), ("ES", "EUR"), ("NL", "EUR"),
  ("BE", "EUR"), ("AT", "EUR"), ("FI", "EUR"), ("IE", "EUR"), ("PT", "EUR"),
  ("GR", "EUR"), ("LU", "EUR"), ("MT", "EUR"), ("CY", "EUR"), ("SK", "EUR"),
  ("SI", "EUR"), ("EE", "EUR"), ("LV", "EUR"), ("LT", "EUR"),
  ("AU", "AUD"), ("NZ", "NZD"), ("SG", "SGD"), ("HK", "HKD"), ("TW", "TWD"),
  ("TH", "THB"), ("MY", "MYR"), ("ID", "IDR"), ("PH", "PHP"), ("VN", "VND"),
  ("IN", "INR"), ("PK", "PKR"), ("BD", "BDT"), ("LK", "LKR"), ("NP", "NPR"),
  ("MM", "MMK"), ("KH", "KHR"), ("LA", "LAK"), ("BN", "BND"), ("FJ", "FJD"),
  ("PG", "PGK"), ("SB", "SBD"), ("VU", "VUV"), ("WS", "WST"), ("TO", "TOP"),
  ("KI", "AUD"), ("TV", "AUD"), ("NR", "AUD"), ("PW", "USD"), ("FM", "USD"),
  ("MH", "USD"),
  ("CA", "CAD"), ("MX", "MXN"), ("BR", "BRL"), ("AR", "ARS"), ("CL", "CLP"),
  ("CO", "COP"), ("PE", "PEN"), ("VE", "VES"), ("UY", "UYU"), ("PY", "PYG"),
  ("BO", "BOB"), ("EC", "USD"), ("GY", "GYD"), ("SR", "SRD"), ("TT", "TTD"),
  ("JM", "JMD"), ("BB", "BBD"), ("BZ", "BZD"), ("GT", "GTQ"), ("HN", "HNL"),
  ("SV", "USD"), ("NI", "NIO"), ("CR", "CRC"), ("PA", "PAB"), ("CU", "CUP"),
  ("DO", "DOP"), ("HT", "HTG"), ("PR", "USD"), ("VI", "USD"), ("AG", "XCD"),
  ("DM", "XCD"), ("GD", "XCD"), ("KN", "XCD"), ("LC", "XCD"), ("VC", "XCD"),
  ("CH", "CHF"), ("SE", "SEK"), ("NO", "NOK"), ("DK", "DKK"), ("IS", "ISK"),
  ("PL", "PLN"), ("CZ", "CZK"), ("HU", "HUF"), ("RO", "RON"), ("BG", "BGN"),
  ("HR", "HRK"), ("RS", "RSD"), ("BA", "BAM"), ("ME", "EUR"), ("MK", "MKD"),
  ("AL", "ALL"), ("XK", "EUR"), ("MD", "MDL"), ("UA", "UAH"), ("BY", "BYN"),
  ("RU", "RUB"), ("KZ", "KZT"), ("KG", "KGS"), ("TJ", "TJS"), ("TM", "TMT"),
  ("UZ", "UZS"), ("GE", "GEL"), ("AM", "AMD"), ("AZ", "AZN"), ("TR", "TRY"),
  ("SA", "SAR"), ("AE", "AED"), ("KW", "KWD"), ("QA", "QAR"), ("BH", "BHD"),
  ("OM", "OMR"), ("JO", "JOD"), ("LB", "LBP"), ("SY", "SYP"), ("IQ", "IQD"),
  ("IR", "IRR"), ("IL", "ILS"), ("PS", "ILS"), ("EG", "EGP"), ("LY", "LYD"),
  ("TN", "TND"), ("DZ", "DZD"), ("MA", "MAD"), ("SD", "SDG"), ("SS", "SSP"),
  ("ET", "ETB"), ("ER", "ERN"), ("DJ", "DJF"), ("SO", "SOS"), ("KE", "KES"),
  ("UG", "UGX"), ("TZ", "TZS"), ("RW", "RWF"), ("BI", "BIF"), ("MW", "MWK"),
  ("ZM", "ZMW"), ("ZW", "ZWL"), ("BW", "BWP"), ("NA", "NAD"), ("SZ", "SZL"),
  ("LS", "LSL"), ("MZ", "MZN"), ("MG", "MGA"), ("MU", "MUR"), ("SC", "SCR"),
  ("KM", "KMF"), ("YT", "EUR"), ("RE", "EUR"), ("ZA", "ZAR"), ("AO", "AOA"),
  ("CD", "CDF"), ("CG", "XAF"), ("CM", "XAF"), ("CF", "XAF"), ("TD", "XAF"),
  ("GQ", "XAF"), ("GA", "XAF"), ("ST", "STN"), ("BJ", "XOF"), ("BF", "XOF"),
  ("CI", "XOF"), ("GM", "GMD"), ("GN", "GNF"), ("GW", "XOF"), ("LR", "LRD"),
  ("ML", "XOF"), ("MR", "MRU"), ("NE", "XOF"), ("SN", "XOF"), ("SL", "SLE"),
  ("TG", "XOF"), ("CV", "CVE"), ("GH", "GHS"), ("NG", "NGN"),
  ("AF", "AFN"), ("PK", "PKR"), ("BD", "BDT"), ("LK", "LKR"), ("NP", "NPR"),
  ("MM", "MMK"), ("KH", "KHR"), ("LA", "LAK"), ("BN", "BND"), ("FJ", "FJD"),
  ("PG", "PGK"), ("SB", "SBD"), ("VU", "VUV"), ("WS", "WST"), ("TO", "TOP"),
  ("KI", "AUD"), ("TV", "AUD"), ("NR", "AUD"), ("PW", "USD"), ("FM", "USD"),
  ("MH", "USD")]

/-- Member names inherited by every JS object literal from
`Object.prototype`, whose values are functions (or, for `__proto__`, an
object): all truthy, none of them strings. -/
def objectPrototypeMembers : List String :=
  ["constructor", "hasOwnProperty", "isPrototypeOf", "propertyIsEnumerable",
   "toLocaleString", "toString", "valueOf", "__proto__",
   "__defineGetter__", "__defineSetter__", "__lookupGetter__", "__lookupSetter__"]

/-- Value of a JS property read `obj[key]` on the mapping object: an own
string property, a member inherited from `Object.prototype` (a function
or object, never a string), or undefined. -/
inductive JsLookupResult where
  | str (s : String)
  | inherited (name : String)
  | undefinedVal
deriving DecidableEq

/-- JS truthiness of such a value: a string is truthy when nonempty,
an inherited function or object is always truthy, undefined is falsy. -/
def truthy : JsLookupResult → Bool
  | .str s => decide (¬ s = "")
  | .inherited _ => true
  | .undefinedVal => false

/-- Model of the JS `||` operator at these values: the left operand when
truthy, else the right. -/
def jsOr (a b : JsLookupResult) : JsLookupResult :=
  if truthy a = true then a else b

/-- Model of the property read `countryToCurrency[countryCode]`,
including the prototype chain: an own key yields its string value (the
last binding of a repeated key), a table-absent key that names an
`Object.prototype` member yields that inherited member, and any other
key yields undefined. -/
def objLookup (countryCode : String) : JsLookupResult :=
  match (countryToCurrency.reverse).lookup countryCode with
  | some v => .str v
  | none =>
    if countryCode ∈ objectPrototypeMembers then .inherited countryCode else .undefinedVal

/-- Embedding of `getCurrencyCode` (part_001 lines 151-210):
`countryToCurrency[countryCode] || 'USD'`, the property read followed by
the truthiness-based default. -/
def getCurrencyCode (countryCode : String) : JsLookupResult :=
  jsOr (objLookup countryCode) (.str ("USD"))

/-! ## Helper lemmas about the gates -/

/-- Rational-to-natural transfer of the ApiService threshold comparison:
`(a : ℚ) < (b : ℚ) * 0.3` holds exactly when `10 * a < 3 * b` over ℕ. -/
theorem cast_lt_three_tenths (a b : ℕ) :
    (((a : ℚ)) < ((b : ℚ)) * 0.3) ↔ 10 * a < 3 * b := by
  have h03 : (0.3 : ℚ) = 3 / 10 := by norm_num
  rw [h03]
  constructor
  · intro h
    have h10 : ((10 * a : ℕ) : ℚ) < ((3 * b : ℕ) : ℚ) := by push_cast; linarith
    exact_mod_cast h10
  · intro h
    have h10 : ((10 * a : ℕ) : ℚ) < ((3 * b : ℕ) : ℚ) := by exact_mod_cast h
    push_cast at h10
    linarith

/-- Rational-to-natural transfer of the chart threshold comparison:
`¬((b : ℚ) * 0.3 < (a : ℚ))` holds exactly when `10 * a ≤ 3 * b` over ℕ. -/
theorem cast_le_three_tenths (a b : ℕ) :
    (¬ (((b : ℚ)) * 0.3 < ((a : ℚ)))) ↔ 10 * a ≤ 3 * b := by
  have h03 : (0.3 : ℚ) = 3 / 10 := by norm_num
  rw [h03, not_lt]
  constructor
  · intro h
    have h10 : ((10 * a : ℕ) : ℚ) ≤ ((3 * b : ℕ) : ℚ) := by push_cast; linarith
    exact_mod_cast h10
  · intro h
    have h10 : ((10 * a : ℕ) : ℚ) ≤ ((3 * b : ℕ) : ℚ) := by exact_mod_cast h
    push_cast at h10
    linarith

/-- Characterisation of the ApiService quality gate on datasets meeting
its minimum of two positive rates: it passes exactly when the validity
check passes and strictly fewer than 30 percent of the positive rates lie
outside the IQR fence. -/
theorem quality_gate_iff (d : HistoryData) (h2 : 2 ≤ (qualityRates d).length) :
    validateExchangeRateQuality (some d) = true ↔
      (validateExchangeRateData (some d) = true ∧
        10 * (iqrOutliers (qualityRates d)).length < 3 * (qualityRates d).length) := by
  simp only [validateExchangeRateQuality]
  by_cases hv : validateExchangeRateData (some d) = true
  · rw [if_pos hv, if_neg (by omega : ¬ (qualityRates d).length < 2)]
    rw [decide_eq_true_iff]
    simp only [hv, true_and]
    exact cast_lt_three_tenths _ _
  · rw [if_neg hv]
    simp [hv]

/-- Characterisation of the chart quality gate on lists meeting its
minimum of 29 valid rates: it passes exactly when at most 30 percent of
the rates lie outside the IQR fence. -/
theorem chart_gate_iff (rates : List ℚ) (h29 : 29 ≤ rates.length) :
    chartQualityGate rates = true ↔
      10 * (iqrOutliers rates).length ≤ 3 * rates.length := by
  unfold chartQualityGate
  rw [if_neg (by omega : ¬ rates.length < 29)]
  rw [← cast_le_three_tenths]
  by_cases h : ((rates.length : ℚ)) * 0.3 < (((iqrOutliers rates).length : ℚ))
  · simp [h]
  · simp [h]

/-- Evaluation of the outlier list when both quartiles coincide: the
fence degenerates to the single point q. -/
theorem outliers_degenerate (rates : List ℚ) (q : ℚ)
    (h1 : quartile1 rates = q) (h3 : quartile3 rates = q) :
    iqrOutliers rates = rates.filter (fun r => decide (r < q) || decide (q < r)) := by
  have hlo : iqrLower rates = q := by unfold iqrLower; rw [h1, h3]; ring
  have hhi : iqrUpper rates = q := by unfold iqrUpper; rw [h1, h3]; ring
  unfold iqrOutliers
  rw [hlo, hhi]

/-- The 30-outlier dataset has exactly 30 positive rates outside its
degenerate fence [100, 100]. -/
theorem outliers_dsOut30 : (iqrOutliers (qualityRates dsOut30)).length = 30 := by
  rw [outliers_degenerate (qualityRates dsOut30) 100 (by decide) (by decide)]
  decide

/-- The 35-outlier dataset has exactly 35 positive rates outside its
degenerate fence [100, 100]. -/
theorem outliers_dsOut35 : (iqrOutliers (qualityRates dsOut35)).length = 35 := by
  rw [outliers_degenerate (qualityRates dsOut35) 100 (by decide) (by decide)]
  decide

/-- The 25-outlier dataset has exactly 25 positive rates outside its
degenerate fence [100, 100]. -/
theorem outliers_dsOut25 : (iqrOutliers (qualityRates dsOut25)).length = 25 := by
  rw [outliers_degenerate (qualityRates dsOut25) 100 (by decide) (by decide)]
  decide

/-- Ten identical rates have no outliers. -/
theorem outliers_dsTen : (iqrOutliers (qualityRates dsTen)).length = 0 := by
  rw [outliers_degenerate (qualityRates dsTen) 100 (by decide) (by decide)]
  decide

/-- Thirty identical rates have no outliers. -/
theorem outliers_rep30 : (iqrOutliers (List.replicate 30 (100 : ℚ))).length = 0 := by
  rw [outliers_degenerate (List.replicate 30 (100 : ℚ)) 100 (by decide) (by decide)]
  decide

/-- The ApiService gate rejects the 30-outlier dataset: 30 is not
strictly below 30 percent of 100. -/
theorem quality_dsOut30_false : validateExchangeRateQuality (some dsOut30) = false := by
  rw [Bool.eq_false_iff]
  intro h
  have hlt := ((quality_gate_iff dsOut30 (by decide)).mp h).2
  rw [outliers_dsOut30, (by decide : (qualityRates dsOut30).length = 100)] at hlt
  omega

/-- The ApiService gate rejects the 35-outlier dataset. -/
theorem quality_dsOut35_false : validateExchangeRateQuality (some dsOut35) = false := by
  rw [Bool.eq_false_iff]
  intro h
  have hlt := ((quality_gate_iff dsOut35 (by decide)).mp h).2
  rw [outliers_dsOut35, (by decide : (qualityRates dsOut35).length = 100)] at hlt
  omega

/-- The ApiService gate accepts the 25-outlier dataset. -/
theorem quality_dsOut25_true : validateExchangeRateQuality (some dsOut25) = true := by
  refine (quality_gate_iff dsOut25 (by decide)).mpr ⟨by decide, ?_⟩
  rw [outliers_dsOut25, (by decide : (qualityRates dsOut25).length = 100)]
  omega

/-- The ApiService gate accepts ten identical positive rates. -/
theorem quality_dsTen_true : validateExchangeRateQuality (some dsTen) = true := by
  refine (quality_gate_iff dsTen (by decide)).mpr ⟨by decide, ?_⟩
  rw [outliers_dsTen, (by decide : (qualityRates dsTen).length = 10)]
  omega

/-- All positive rates survive the quality extraction of a wrapped list. -/
theorem qualityRates_mkData (rates : List ℚ) (hpos : ∀ r ∈ rates, 0 < r) :
    qualityRates (mkData rates) = rates := by
  unfold qualityRates mkData
  induction rates with
  | nil => rfl
  | cons x xs ih =>
    have hx : 0 < x := hpos x (by simp)
    simp only [List.map_cons, List.filterMap_cons, id, List.filter_cons]
    rw [ih (fun r hr => hpos r (by simp [hr]))]
    simp [hx]

/-- A nonempty wrapped list of positive, sub-ceiling rates passes the
validity check. -/
theorem validate_mkData (rates : List ℚ) (hok : ∀ r ∈ rates, 0 < r ∧ r < 1000000)
    (hne : rates ≠ []) :
    validateExchangeRateData (some (mkData rates)) = true := by
  unfold validateExchangeRateData mkData
  rw [decide_eq_true_iff]
  have hfull : (rates.map (fun r => (⟨some r, true⟩ : HistoryPoint))).filter isValidPoint
      = rates.map (fun r => (⟨some r, true⟩ : HistoryPoint)) := by
    rw [List.filter_eq_self]
    intro p hp
    rcases List.mem_map.mp hp with ⟨r, hr, rfl⟩
    rcases hok r hr with ⟨h1, h2⟩
    simp [isValidPoint, h1, h2]
  rw [hfull, List.length_map]
  exact List.length_pos.mpr hne

/-! ## Claims C1 to C4 -/

/-- C1 counterexample: a 100-point dataset, every point valid, with
exactly 30 of the 100 positive rates outside the IQR fence.  Thirty
percent is not more than thirty percent, so the claim as stated demands
acceptance, yet `validateExchangeRateQuality` rejects it: the code
comparison `outliers.length < rates.length * 0.3` is strict, so the gate
already rejects at exactly 30 percent. -/
theorem quality_gate_boundary_counterexample :
    (qualityRates dsOut30).length = 100 ∧
    (iqrOutliers (qualityRates dsOut30)).length = 30 ∧
    (∀ p ∈ dsOut30.results, isValidPoint p = true) ∧
    validateExchangeRateQuality (some dsOut30) = false :=
  ⟨by decide, outliers_dsOut30, by decide, quality_dsOut30_false⟩

/-- C1 (amended): on every dataset meeting the minimum of two positive
rates, the ApiService quality gate passes exactly when the validity check
passes and strictly fewer than 30 percent of the positive rates fall
outside the IQR fence — equivalently it rejects as soon as at least 30
percent are outside; in particular the 100-point dataset with 35 points
outside is rejected and the one with 25 points outside is accepted. -/
theorem quality_gate_threshold :
    (∀ d : HistoryData, 2 ≤ (qualityRates d).length →
      (validateExchangeRateQuality (some d) = true ↔
        (validateExchangeRateData (some d) = true ∧
          10 * (iqrOutliers (qualityRates d)).length < 3 * (qualityRates d).length)))
    ∧ validateExchangeRateQuality (some dsOut35) = false
    ∧ validateExchangeRateQuality (some dsOut25) = true :=
  ⟨fun d h2 => quality_gate_iff d h2, quality_dsOut35_false, quality_dsOut25_true⟩

/-- C1 witness: the threshold characterisation applied to the concrete
25-outlier dataset. -/
theorem quality_gate_threshold_witness :
    2 ≤ (qualityRates dsOut25).length ∧
    (validateExchangeRateQuality (some dsOut25) = true ↔
      (validateExchangeRateData (some dsOut25) = true ∧
        10 * (iqrOutliers (qualityRates dsOut25)).length < 3 * (qualityRates dsOut25).length)) :=
  ⟨by decide, quality_gate_threshold.1 dsOut25 (by decide)⟩

/-- C2: below each gate's configured minimum the verdict is insufficient
regardless of outliers.  The validity check requires at least one valid
point, so zero valid points fail both it and the quality gate; the
ApiService quality gate rejects any dataset with fewer than two positive
rates; the chart gate rejects any slot list with fewer than 29 valid
rates. -/
theorem min_sufficiency_all_gates :
    (∀ d : HistoryData, (d.results.filter isValidPoint).length = 0 →
      validateExchangeRateData (some d) = false ∧
        validateExchangeRateQuality (some d) = false)
    ∧ (∀ d : HistoryData, (qualityRates d).length < 2 →
      validateExchangeRateQuality (some d) = false)
    ∧ (∀ chartData : List (Option ℚ), (chartValidRates chartData).length < 29 →
      chartQualityGate (chartValidRates chartData) = false) := by
  refine ⟨?_, ?_, ?_⟩
  · intro d h0
    have hv : validateExchangeRateData (some d) = false := by
      simp only [validateExchangeRateData]
      rw [h0]
      rfl
    refine ⟨hv, ?_⟩
    simp only [validateExchangeRateQuality]
    rw [if_neg (by simp [hv] : ¬ validateExchangeRateData (some d) = true)]
  · intro d hlt
    simp only [validateExchangeRateQuality]
    by_cases hv : validateExchangeRateData (some d) = true
    · rw [if_pos hv, if_pos hlt]
    · rw [if_neg hv]
  · intro chartData hlt
    unfold chartQualityGate
    rw [if_pos hlt]

/-- C2 witness: each minimum applied at a concrete input — the
one-negative-point payload has zero valid points, the single-valid-point
payload has fewer than two positive rates, and a ten-slot chart list has
fewer than 29 valid rates. -/
theorem min_sufficiency_all_gates_witness :
    ((dsNegative.results.filter isValidPoint).length = 0 ∧
      validateExchangeRateData (some dsNegative) = false ∧
      validateExchangeRateQuality (some dsNegative) = false) ∧
    ((qualityRates dsSingle).length < 2 ∧
      validateExchangeRateQuality (some dsSingle) = false) ∧
    ((chartValidRates (List.replicate 10 (some (100 : ℚ)))).length < 29 ∧
      chartQualityGate (chartValidRates (List.replicate 10 (some (100 : ℚ)))) = false) := by
  refine ⟨⟨by decide, ?_⟩, ⟨by decide, ?_⟩, ⟨by decide, ?_⟩⟩
  · have h := min_sufficiency_all_gates.1 dsNegative (by decide)
    exact ⟨h.1, h.2⟩
  · exact min_sufficiency_all_gates.2.1 dsSingle (by decide)
  · exact min_sufficiency_all_gates.2.2 (List.replicate 10 (some (100 : ℚ))) (by decide)

/-- C3 counterexample: the two gates are not the same check.  Ten
identical positive rates pass the ApiService gate (minimum two, zero
outliers) but fail the chart gate (minimum 29); and on the 100-rate
dataset with exactly 30 outliers the ApiService gate rejects (strict
`<` against 30 percent) while the chart gate accepts (it rejects only
strictly above 30 percent). -/
theorem gates_differ_counterexample :
    qualityRates dsTen = List.replicate 10 (100 : ℚ) ∧
    validateExchangeRateQuality (some dsTen) = true ∧
    chartQualityGate (List.replicate 10 (100 : ℚ)) = false ∧
    validateExchangeRateQuality (some dsOut30) = false ∧
    chartQualityGate (qualityRates dsOut30) = true := by
  refine ⟨by decide, quality_dsTen_true, by decide, quality_dsOut30_false, ?_⟩
  refine (chart_gate_iff _ (by decide)).mpr ?_
  rw [outliers_dsOut30, (by decide : (qualityRates dsOut30).length = 100)]

/-- C3 (amended): the two gates share the quartile computation and the
1.5-IQR fence but differ in minimum count (2 versus 29) and in threshold
strictness (ApiService rejects already at 30 percent, the chart rejects
only strictly above 30 percent); on every list of at least 29 positive
sub-ceiling rates whose outlier count is not exactly 30 percent, the two
gates agree. -/
theorem gates_agree_off_boundary (rates : List ℚ)
    (hok : ∀ r ∈ rates, 0 < r ∧ r < 1000000)
    (h29 : 29 ≤ rates.length)
    (hne : 10 * (iqrOutliers rates).length ≠ 3 * rates.length) :
    validateExchangeRateQuality (some (mkData rates)) = chartQualityGate rates := by
  have hq : qualityRates (mkData rates) = rates :=
    qualityRates_mkData rates (fun r hr => (hok r hr).1)
  have h2 : 2 ≤ (qualityRates (mkData rates)).length := by rw [hq]; omega
  have hv : validateExchangeRateData (some (mkData rates)) = true :=
    validate_mkData rates hok (by intro hnil; rw [hnil] at h29; simp at h29)
  have hA := quality_gate_iff (mkData rates) h2
  rw [hq] at hA
  have hB := chart_gate_iff rates h29
  cases hcq : validateExchangeRateQuality (some (mkData rates)) with
  | true =>
    have hlt := (hA.mp hcq).2
    exact (hB.mpr (Nat.le_of_lt hlt)).symm
  | false =>
    cases hcg : chartQualityGate rates with
    | true =>
      have hle := hB.mp hcg
      have hlt : 10 * (iqrOutliers rates).length < 3 * rates.length :=
        lt_of_le_of_ne hle hne
      have := hA.mpr ⟨hv, hlt⟩
      rw [this] at hcq
      exact absurd hcq (by simp)
    | false => rfl

/-- C3 witness: agreement of the two gates on thirty identical positive
rates (zero outliers, away from the 30 percent boundary). -/
theorem gates_agree_off_boundary_witness :
    (∀ r ∈ List.replicate 30 (100 : ℚ), 0 < r ∧ r < 1000000) ∧
    29 ≤ (List.replicate 30 (100 : ℚ)).length ∧
    10 * (iqrOutliers (List.replicate 30 (100 : ℚ))).length ≠
      3 * (List.replicate 30 (100 : ℚ)).length ∧
    validateExchangeRateQuality (some (mkData (List.replicate 30 (100 : ℚ)))) =
      chartQualityGate (List.replicate 30 (100 : ℚ)) :=
  ⟨by decide, by decide, by rw [outliers_rep30]; decide,
    gates_agree_off_boundary (List.replicate 30 (100 : ℚ)) (by decide) (by decide)
      (by rw [outliers_rep30]; decide)⟩

/-- C4: a point counts as valid exactly when its rate is a number,
strictly positive and below the 1,000,000 ceiling, and its timestamp
parses; and `validateExchangeRateData` returns true exactly when at least
one point of the payload is valid. -/
theorem validity_characterisation :
    (∀ p : HistoryPoint, isValidPoint p = true ↔
      ((∃ r : ℚ, p.rate = some r ∧ 0 < r ∧ r < 1000000) ∧ p.dateOk = true))
    ∧ (∀ d : HistoryData, validateExchangeRateData (some d) = true ↔
      ∃ p ∈ d.results, isValidPoint p = true) := by
  constructor
  · intro p
    cases hr : p.rate with
    | none => simp [isValidPoint, hr]
    | some r =>
      simp only [isValidPoint, hr, Bool.and_eq_true, decide_eq_true_iff]
      constructor
      · rintro ⟨⟨h1, h2⟩, h3⟩
        exact ⟨⟨r, rfl, h1, h3⟩, h2⟩
      · rintro ⟨⟨r', hr', h1, h3⟩, h2⟩
        cases hr'
        exact ⟨⟨h1, h2⟩, h3⟩
  · intro d
    simp only [validateExchangeRateData]
    rw [decide_eq_true_iff, List.length_pos_iff_exists_mem]
    constructor
    · rintro ⟨p, hp⟩
      have hm := List.mem_filter.mp hp
      exact ⟨p, hm.1, hm.2⟩
    · rintro ⟨p, hp, hv⟩
      exact ⟨p, List.mem_filter.mpr ⟨hp, hv⟩⟩

/-! ## Helper lemmas about the API client -/

/-- A body returned from the shared try-block has a true success flag:
the falsy-flag branch throws instead. -/
theorem requestTry_ok_success {α : Type} (d : String) (o : FetchOutcome α) (v : Response α)
    (h : requestTry d o = .ok v) : v.success = true := by
  cases o with
  | netError msg => simp [requestTry] at h
  | httpResponse ok status body =>
    simp only [requestTry] at h
    by_cases hok : ok = false
    · rw [if_pos hok] at h
      simp at h
    · rw [if_neg hok] at h
      by_cases hs : body.success = false
      · rw [if_pos hs] at h
        simp at h
      · rw [if_neg hs] at h
        cases h
        simpa using hs

/-- The catch clause forwards a returned body unchanged. -/
theorem catchConn_ok {α : Type} (fb v : Response α) : catchConn fb (.ok v) = .ok v := rfl

/-- The catch clause serves the fallback on a connection-failure
message. -/
theorem catchConn_serve {α : Type} (fb : Response α) (msg : String)
    (h : isConnectionError msg = true) : catchConn fb (.error msg) = .ok fb := by
  simp [catchConn, h]

/-- The catch clause rethrows every other message. -/
theorem catchConn_rethrow {α : Type} (fb : Response α) (msg : String)
    (h : isConnectionError msg = false) : catchConn fb (.error msg) = .error msg := by
  simp [catchConn, h]

/-- A failed fetch surfaces its message from the try-block. -/
theorem requestTry_netError {α : Type} (d msg : String) :
    requestTry d (FetchOutcome.netError (α := α) msg) = .error msg := rfl

/-- Every currency mock response carries success true and no stale tag. -/
theorem getMockData_fields (endpoint now : String) :
    (getMockData endpoint now).success = true ∧ (getMockData endpoint now).staleTag = none := by
  unfold getMockData
  split_ifs <;> exact ⟨rfl, rfl⟩

/-- Every ranking mock response carries success true. -/
theorem getRankingMockData_success (endpoint now : String) :
    (getRankingMockData endpoint now).success = true := by
  unfold getRankingMockData
  split_ifs <;> rfl

/-! ## Claims C5 to C7 and C9 -/

/-- C5: the three failure outcomes are surfaced distinctly.  A history
body whose truthy payload fails the validity check is answered by
`historyRequest` with success false, message '데이터 부족' and null data;
one passing validity but failing the quality check is answered with the
distinct message '데이터 품질 부족' and null data; and `getExchangeRates`
answers success false, '데이터 부족' and null data when no positive
numeric rate remains in a successful rates response. -/
theorem distinct_failure_outcomes :
    (∀ (endpoint : String) (gen : HistoryData) (st : ℕ)
      (body : Response HistoryPayload) (p : HistoryPayload),
      body.success = true → body.data = some p →
      validateExchangeRateData (payloadResults p) = false →
      historyRequest endpoint gen (.httpResponse true st body) =
        .ok ⟨false, some ("데이터 부족"), none, none⟩)
  ∧ (∀ (endpoint : String) (gen : HistoryData) (st : ℕ)
      (body : Response HistoryPayload) (p : HistoryPayload),
      body.success = true → body.data = some p →
      validateExchangeRateData (payloadResults p) = true →
      validateExchangeRateQuality (payloadResults p) = false →
      historyRequest endpoint gen (.httpResponse true st body) =
        .ok ⟨false, some ("데이터 품질 부족"), none, none⟩)
  ∧ (∀ (endpoint now : String) (o : FetchOutcome CurrencyPayload)
      (resp : Response CurrencyPayload) (base ts : String)
      (entries : List (String × Option ℚ)) (ch : Bool),
      request endpoint now o = .ok resp → resp.success = true →
      resp.data = some (.rateTable base entries ts ch) →
      filterValidRates entries = [] →
      getExchangeRates endpoint now o =
        .ok ⟨false, some ("데이터 부족"), none, none⟩) := by
  refine ⟨?_, ?_, ?_⟩
  · intro endpoint gen st body p hs hd hv
    unfold historyRequest
    have ht : historyTry (.httpResponse true st body) =
        .ok ⟨false, some ("데이터 부족"), none, none⟩ := by
      simp only [historyTry]
      rw [if_neg (by simp : ¬ (true = false)),
        if_neg (by simp [hs] : ¬ (body.success = false))]
      have hb : historyCheckBody body = ⟨false, some ("데이터 부족"), none, none⟩ := by
        simp [historyCheckBody, hd, hv]
      rw [hb]
    rw [ht]
    exact catchConn_ok _ _
  · intro endpoint gen st body p hs hd hv hq
    unfold historyRequest
    have ht : historyTry (.httpResponse true st body) =
        .ok ⟨false, some ("데이터 품질 부족"), none, none⟩ := by
      simp only [historyTry]
      rw [if_neg (by simp : ¬ (true = false)),
        if_neg (by simp [hs] : ¬ (body.success = false))]
      have hb : historyCheckBody body = ⟨false, some ("데이터 품질 부족"), none, none⟩ := by
        simp [historyCheckBody, hd, hv, hq]
      rw [hb]
    rw [ht]
    exact catchConn_ok _ _
  · intro endpoint now o resp base ts entries ch hreq hs hd hf
    unfold getExchangeRates
    rw [hreq]
    have hp : getExchangeRatesPost resp = ⟨false, some ("데이터 부족"), none, none⟩ := by
      simp [getExchangeRatesPost, hd, hs, hf]
    show Except.ok (getExchangeRatesPost resp) =
      Except.ok (⟨false, some ("데이터 부족"), none, none⟩ : Response CurrencyPayload)
    rw [hp]

/-- C5 witness: the three outcomes at concrete bodies — a series with one
negative rate (invalid), a series with a single valid point (valid but
below the quality minimum), and a rates object with no positive numeric
entry. -/
theorem distinct_failure_outcomes_witness :
    (histBadBody.success = true ∧ histBadBody.data = some (.series dsNegative) ∧
      validateExchangeRateData (payloadResults (.series dsNegative)) = false ∧
      historyRequest ("/api/v1/history") dsTen (.httpResponse true 200 histBadBody) =
        .ok ⟨false, some ("데이터 부족"), none, none⟩) ∧
    (histLowBody.success = true ∧ histLowBody.data = some (.series dsSingle) ∧
      validateExchangeRateData (payloadResults (.series dsSingle)) = true ∧
      validateExchangeRateQuality (payloadResults (.series dsSingle)) = false ∧
      historyRequest ("/api/v1/history") dsTen (.httpResponse true 200 histLowBody) =
        .ok ⟨false, some ("데이터 품질 부족"), none, none⟩) ∧
    (request ("/x") ("t0") (.httpResponse true 200 ratesEmptyBody) = .ok ratesEmptyBody ∧
      ratesEmptyBody.success = true ∧
      ratesEmptyBody.data =
        some (.rateTable ("KRW") [("USD", none), ("JPY", some (-3))] ("t0") false) ∧
      filterValidRates [("USD", none), ("JPY", some (-3))] = [] ∧
      getExchangeRates ("/x") ("t0") (.httpResponse true 200 ratesEmptyBody) =
        .ok ⟨false, some ("데이터 부족"), none, none⟩) := by
  refine ⟨⟨rfl, rfl, by decide, ?_⟩, ⟨rfl, rfl, by decide, by decide, ?_⟩,
    ⟨rfl, rfl, rfl, by decide, ?_⟩⟩
  · exact distinct_failure_outcomes.1 ("/api/v1/history") dsTen 200 histBadBody
      (.series dsNegative) rfl rfl (by decide)
  · exact distinct_failure_outcomes.2.1 ("/api/v1/history") dsTen 200 histLowBody
      (.series dsSingle) rfl rfl (by decide) (by decide)
  · exact distinct_failure_outcomes.2.2 ("/x") ("t0")
      (.httpResponse true 200 ratesEmptyBody) ratesEmptyBody ("KRW") ("t0")
      [("USD", none), ("JPY", some (-3))] false rfl rfl rfl (by decide)

/-- C6: each of the three request methods answers a thrown error whose
message contains 'Failed to fetch' or 'ERR_CONNECTION_REFUSED' with its
own endpoint-appropriate mock data, and rethrows every thrown error whose
message matches neither substring. -/
theorem mock_on_connection_failure :
    (isConnectionError ("Failed to fetch") = true ∧
      isConnectionError ("ERR_CONNECTION_REFUSED") = true)
  ∧ (∀ (endpoint now msg : String) (o : FetchOutcome CurrencyPayload),
      requestTry ("API 요청 실패") o = .error msg →
        (isConnectionError msg = true →
          request endpoint now o = .ok (getMockData endpoint now)) ∧
        (isConnectionError msg = false → request endpoint now o = .error msg))
  ∧ (∀ (endpoint now msg : String) (o : FetchOutcome RankingPayload),
      requestTry ("랭킹 API 요청 실패") o = .error msg →
        (isConnectionError msg = true →
          rankingRequest endpoint now o = .ok (getRankingMockData endpoint now)) ∧
        (isConnectionError msg = false → rankingRequest endpoint now o = .error msg))
  ∧ (∀ (endpoint msg : String) (gen : HistoryData) (o : FetchOutcome HistoryPayload),
      historyTry o = .error msg →
        (isConnectionError msg = true →
          historyRequest endpoint gen o = .ok (getHistoryMockData endpoint gen)) ∧
        (isConnectionError msg = false → historyRequest endpoint gen o = .error msg)) := by
  refine ⟨⟨by decide, by decide⟩, ?_, ?_, ?_⟩
  · intro endpoint now msg o h
    unfold request
    rw [h]
    exact ⟨fun hc => catchConn_serve _ _ hc, fun hc => catchConn_rethrow _ _ hc⟩
  · intro endpoint now msg o h
    unfold rankingRequest
    rw [h]
    exact ⟨fun hc => catchConn_serve _ _ hc, fun hc => catchConn_rethrow _ _ hc⟩
  · intro endpoint msg gen o h
    unfold historyRequest
    rw [h]
    exact ⟨fun hc => catchConn_serve _ _ hc, fun hc => catchConn_rethrow _ _ hc⟩

/-- C6 witness: a fetch failure with the literal message 'Failed to
fetch' makes `request` serve its mock data. -/
theorem mock_on_connection_failure_witness :
    requestTry ("API 요청 실패")
        (FetchOutcome.netError (α := CurrencyPayload) ("Failed to fetch")) =
      .error ("Failed to fetch") ∧
    isConnectionError ("Failed to fetch") = true ∧
    request ("/health") ("t0") (.netError ("Failed to fetch")) =
      .ok (getMockData ("/health") ("t0")) := by
  refine ⟨rfl, by decide, ?_⟩
  exact (mock_on_connection_failure.2.1 ("/health") ("t0") ("Failed to fetch")
    (.netError ("Failed to fetch")) rfl).1 (by decide)

/-- C7 counterexample: when the currency service is unreachable for the
latest-rates read and the client serves the mock fallback instead of
failing, the delivered response is not tagged stale=true — no response
object of the client carries a stale property at all, and the fallback is
delivered as an ordinary success. -/
theorem stale_tag_counterexample :
    request latestEndpoint ("2025-01-27T10:00:00Z") (.netError ("Failed to fetch")) =
      .ok (getMockData latestEndpoint ("2025-01-27T10:00:00Z")) ∧
    (getMockData latestEndpoint ("2025-01-27T10:00:00Z")).staleTag = none ∧
    ¬ (getMockData latestEndpoint ("2025-01-27T10:00:00Z")).staleTag = some true ∧
    (getMockData latestEndpoint ("2025-01-27T10:00:00Z")).success = true := by
  refine ⟨?_, ?_, ?_, ?_⟩
  · unfold request
    rw [requestTry_netError]
    exact catchConn_serve _ _ (by decide)
  · exact (getMockData_fields latestEndpoint ("2025-01-27T10:00:00Z")).2
  · rw [(getMockData_fields latestEndpoint ("2025-01-27T10:00:00Z")).2]
    simp
  · exact (getMockData_fields latestEndpoint ("2025-01-27T10:00:00Z")).1

/-- C7 (amended): when the backing service is unreachable for a read
(connection-failure error) the read path serves the mock fallback rather
than failing, but delivers it as an ordinary success response with no
stale tag at all — the stale=true tagging required by the claim does not
exist in the client. -/
theorem fallback_unmarked (endpoint now msg : String) (h : isConnectionError msg = true) :
    ∃ v, request endpoint now (.netError msg) = .ok v ∧
      v.staleTag = none ∧ v.success = true := by
  refine ⟨getMockData endpoint now, ?_, (getMockData_fields endpoint now).2,
    (getMockData_fields endpoint now).1⟩
  unfold request
  rw [requestTry_netError]
  exact catchConn_serve _ _ h

/-- C7 witness: the amended statement at the concrete connection-refused
message and the health endpoint. -/
theorem fallback_unmarked_witness :
    isConnectionError ("ERR_CONNECTION_REFUSED") = true ∧
    ∃ v, request ("/health") ("t0") (.netError ("ERR_CONNECTION_REFUSED")) = .ok v ∧
      v.staleTag = none ∧ v.success = true :=
  ⟨by decide, fallback_unmarked ("/health") ("t0") ("ERR_CONNECTION_REFUSED") (by decide)⟩

/-- C9: every value returned rather than thrown by `request` and
`rankingRequest` has a true success flag — a non-ok HTTP status and a
falsy body flag both throw, and every mock fallback carries success
true. -/
theorem client_success_invariant :
    (∀ (endpoint now : String) (o : FetchOutcome CurrencyPayload)
      (v : Response CurrencyPayload),
      request endpoint now o = .ok v → v.success = true)
  ∧ (∀ (endpoint now : String) (o : FetchOutcome RankingPayload)
      (v : Response RankingPayload),
      rankingRequest endpoint now o = .ok v → v.success = true) := by
  constructor
  · intro endpoint now o v h
    unfold request at h
    cases htry : requestTry ("API 요청 실패") o with
    | ok w =>
      rw [htry] at h
      simp only [catchConn] at h
      cases h
      exact requestTry_ok_success _ _ _ htry
    | error msg =>
      rw [htry] at h
      simp only [catchConn] at h
      by_cases hc : isConnectionError msg = true
      · rw [if_pos hc] at h
        cases h
        exact (getMockData_fields endpoint now).1
      · rw [if_neg hc] at h
        simp at h
  · intro endpoint now o v h
    unfold rankingRequest at h
    cases htry : requestTry ("랭킹 API 요청 실패") o with
    | ok w =>
      rw [htry] at h
      simp only [catchConn] at h
      cases h
      exact requestTry_ok_success _ _ _ htry
    | error msg =>
      rw [htry] at h
      simp only [catchConn] at h
      by_cases hc : isConnectionError msg = true
      · rw [if_pos hc] at h
        cases h
        exact getRankingMockData_success endpoint now
      · rw [if_neg hc] at h
        simp at h

/-- C9 witness: the invariant applied to the mock response served on a
concrete connection failure. -/
theorem client_success_invariant_witness :
    request ("/health") ("t0") (.netError ("Failed to fetch")) =
      .ok (getMockData ("/health") ("t0")) ∧
    (getMockData ("/health") ("t0")).success = true :=
  ⟨by rfl, client_success_invariant.1 ("/health") ("t0") (.netError ("Failed to fetch"))
    (getMockData ("/health") ("t0")) (by rfl)⟩

/-! ## Claim C8 -/

/-- C8: applying the same `exchange_rate_updated` event twice to the
Currency Service agent's handler yields the identical cache as applying
it once — the second application clears and refreshes the same entry from
the same canonical value, so re-applying an already-seen event is a safe
no-op; only the last-applied marker may differ. -/
theorem rate_updated_idempotent (store : String → Option ℚ) (msg : RateUpdatedMsg)
    (t1 t2 : String) (s : AgentState) :
    (handle_exchange_rate_updated store msg t2
        (handle_exchange_rate_updated store msg t1 s)).cache
      = (handle_exchange_rate_updated store msg t1 s).cache := by
  funext k
  simp only [handle_exchange_rate_updated, refresh_currency_cache, clear_cache]
  by_cases hk : k = msg.currency_code
  · simp [hk]
  · simp [hk]

/-! ## Claim C10 -/

/-- A successful lookup finds one of the list's own pairs. -/
theorem lookup_mem_string (l : List (String × String)) (k v : String)
    (h : l.lookup k = some v) : (k, v) ∈ l := by
  induction l with
  | nil => simp [List.lookup] at h
  | cons p t ih =>
    obtain ⟨a, b⟩ := p
    cases hbeq : (k == a) with
    | true =>
      have ha : k = a := by simpa using hbeq
      simp only [List.lookup, hbeq] at h
      cases h
      subst ha
      exact List.mem_cons_self _ _
    | false =>
      simp only [List.lookup, hbeq] at h
      exact List.mem_cons_of_mem _ (ih h)

/-- C10 counterexample: the mapping is not total in the claimed sense.
The input 'toString' is absent from the table, yet the property read
finds the inherited `Object.prototype` member — a truthy function, so
`|| 'USD'` never fires — and `getCurrencyCode` returns that function
rather than the default 'USD' or any currency string. -/
theorem currency_code_prototype_counterexample :
    ("toString" ∉ countryToCurrency.map Prod.fst) ∧
    getCurrencyCode ("toString") = .inherited ("toString") ∧
    ¬ getCurrencyCode ("toString") = .str ("USD") := by
  refine ⟨by decide, by decide, by decide⟩

set_option maxRecDepth 8192 in
/-- C10 (amended): for every input that does not name an
`Object.prototype` member, `getCurrencyCode` returns a string — the
table's binding for a table key, and the default 'USD' for a code absent
from the table; for the prototype member names (all absent from the
table) it instead returns the inherited non-string member. -/
theorem currency_code_total_amended :
    (∀ code : String, code ∉ objectPrototypeMembers →
      (getCurrencyCode code = .str ("USD") ∨
        ∃ v, (code, v) ∈ countryToCurrency ∧ getCurrencyCode code = .str v))
  ∧ (∀ code : String, code ∉ countryToCurrency.map Prod.fst →
      code ∉ objectPrototypeMembers → getCurrencyCode code = .str ("USD"))
  ∧ (∀ code ∈ objectPrototypeMembers, getCurrencyCode code = .inherited code) := by
  have hvals : ∀ p ∈ countryToCurrency, ¬ p.2 = "" := by decide
  refine ⟨?_, ?_, by decide⟩
  · intro code hproto
    cases hl : (countryToCurrency.reverse).lookup code with
    | none =>
      left
      simp only [getCurrencyCode, objLookup, hl]
      simp [jsOr, truthy, hproto]
    | some v =>
      right
      have hm := List.mem_reverse.mp (lookup_mem_string _ code v hl)
      refine ⟨v, hm, ?_⟩
      have hne : ¬ v = "" := hvals (code, v) hm
      simp only [getCurrencyCode, objLookup, hl]
      simp [jsOr, truthy, hne]
  · intro code habs hproto
    cases hl : (countryToCurrency.reverse).lookup code with
    | none =>
      simp only [getCurrencyCode, objLookup, hl]
      simp [jsOr, truthy, hproto]
    | some v =>
      exfalso
      have hm := List.mem_reverse.mp (lookup_mem_string _ code v hl)
      exact habs (List.mem_map.mpr ⟨(code, v), hm, rfl⟩)

/-- C10 witness: the unmapped, non-prototype code 'ZZ' falls back to the
string 'USD'. -/
theorem currency_code_total_amended_witness :
    ("ZZ" ∉ countryToCurrency.map Prod.fst) ∧ ("ZZ" ∉ objectPrototypeMembers) ∧
    getCurrencyCode ("ZZ") = .str ("USD") :=
  ⟨by decide, by decide, currency_code_total_amended.2.1 ("ZZ") (by decide) (by decide)⟩
